import Mathlib

/-!
# Verification of the MindLens resilient ingestion-and-scoring core

Shallow embedding of the stress/wellness scoring engine
(`model_manager.py`), the trend classifier (`api/utils.py`), the failure
classifier and offline fallback store (`offline_storage.py`), and the
habit-ingestion / scan-read orchestrators (`app.py`).  Python floats are
modelled as rationals (`ℚ`), Python strings as `String`, raised
exceptions as values of a `PyError` record threaded through `Except`.
-/

/-- The feature mapping produced by `StressAnalyzer.extract_features` and
consumed by `ModelManager.predict_stress` (the eleven keys listed in
`model_manager.py`).  Fields model the values present in the dict. -/
structure StressFeatures where
  emotion : String
  emotion_confidence : ℚ
  mouth_open : ℚ
  eyebrow_raise : ℚ
  jaw_clench_score : ℚ
  posture_quality : String
  slouch_score : ℚ
  head_tilt_angle : ℚ
  shoulder_alignment_diff : ℚ
  spine_curve_ratio : ℚ
  pose_confidence : ℚ
deriving DecidableEq

/-- The `emotion_scores` dict lookup with default 30
(`emotion_scores.get(emotion, 30)` in `predict_stress`). -/
def emotion_scores (e : String) : ℚ :=
  if e = "happy" then 10
  else if e = "neutral" then 30
  else if e = "sad" then 50
  else if e = "fear" then 70
  else if e = "angry" then 80
  else 30

/-- The `posture_scores` dict lookup with default 15
(`posture_scores.get(posture, 15)` in `predict_stress`); the `"unknown"`
entry of the dict coincides with the default. -/
def posture_scores (p : String) : ℚ :=
  if p = "good" then 5
  else if p = "fair" then 15
  else if p = "poor" then 25
  else if p = "unknown" then 15
  else 15

/-- The sequential accumulation of `stress_score` in
`ModelManager.predict_stress` (`model_manager.py` lines 122-150):
emotion term, jaw term `jaw_tension * 100 * 0.3`, posture term, then
`+5` when `mouth_open > 0.03` and `+5` when `eyebrow_raise > 0.1`. -/
def stressScore (f : StressFeatures) : ℚ :=
  let s0 : ℚ := 0
  let s1 := s0 + emotion_scores f.emotion
  let s2 := s1 + f.jaw_clench_score * 100 * (3/10)
  let s3 := s2 + posture_scores f.posture_quality
  let s4 := if f.mouth_open > 3/100 then s3 + 5 else s3
  let s5 := if f.eyebrow_raise > 1/10 then s4 + 5 else s4
  s5

/-- The prediction/confidence branch of `predict_stress`
(`model_manager.py` lines 152-161): `score < 35` is `low` with
confidence `0.75 + (35 - score)/100`, `score < 60` is `medium` with
confidence `0.70 + abs(47.5 - score)/100`, otherwise `high` with
confidence `0.72 + (score - 60)/100`.  The final `min 0.95` cap of line
164 is applied by `predict_stress` below. -/
def stress_bucket (s : ℚ) : String × ℚ :=
  if s < 35 then ("low", 75/100 + (35 - s)/100)
  else if s < 60 then ("medium", 70/100 + |95/2 - s| / 100)
  else ("high", 72/100 + (s - 60)/100)

/-- `ModelManager.predict_stress`.  `loaded` models
`self.models_loaded and self.stress_model_bundle` (line 64); `blowup`
models an exception escaping the `try` body, caught at lines 173-176 and
turned into `("medium", 0.0)`.  Otherwise the rule-based score is
bucketed and the confidence capped at 0.95 (line 164). -/
def predict_stress (loaded blowup : Bool) (f : StressFeatures) : String × ℚ :=
  if loaded = false then ("unknown", 0)
  else if blowup = true then ("medium", 0)
  else ((stress_bucket (stressScore f)).1,
        min (95/100) (stress_bucket (stressScore f)).2)

/-- Modelled from the spec: the additive scoring formula exactly as the
claim words it — emotion lookup (happy→10, neutral→30, sad→50, fear→70,
angry→80, unknown→30) + jaw_clench_score × 100 × 0.3 + posture lookup
(good→5, fair→15, poor→25, unknown→15) + 5 if mouth_open > 0.03 + 5 if
eyebrow_raise > 0.1. -/
def claimStressFormula (f : StressFeatures) : ℚ :=
  (if f.emotion = "happy" then (10 : ℚ)
   else if f.emotion = "neutral" then 30
   else if f.emotion = "sad" then 50
   else if f.emotion = "fear" then 70
   else if f.emotion = "angry" then 80
   else 30)
  + f.jaw_clench_score * 100 * (3/10)
  + (if f.posture_quality = "good" then (5 : ℚ)
     else if f.posture_quality = "fair" then 15
     else if f.posture_quality = "poor" then 25
     else 15)
  + (if f.mouth_open > 3/100 then (5 : ℚ) else 0)
  + (if f.eyebrow_raise > 1/10 then (5 : ℚ) else 0)

/-- Modelled from the spec: the bucketing rule as the claim words it —
`score < 35 → "low"`, `35 ≤ score < 60 → "medium"`, `score ≥ 60 →
"high"`. -/
def claimStressBucket (s : ℚ) : String :=
  if s < 35 then "low"
  else if 35 ≤ s ∧ s < 60 then "medium"
  else "high"

/-- Modelled from the spec: the distance of a score from the nearest
bucket boundary inside its bucket (boundaries 35 and 60). -/
def boundaryDist (s : ℚ) : ℚ :=
  if s < 35 then 35 - s
  else if s < 60 then min (s - 35) (60 - s)
  else s - 60

/-- The scan of testable property 8: emotion=happy, jaw 0, posture good,
mouth 0, eyebrow 0. -/
def happyF : StressFeatures :=
  ⟨"happy", 9/10, 0, 0, 0, "good", 0, 0, 0, 0, 0⟩

/-- The scan of testable property 7: emotion=angry, jaw 0.5, posture
poor, mouth 0.05, eyebrow 0.2. -/
def angryF : StressFeatures :=
  ⟨"angry", 9/10, 5/100, 2/10, 1/2, "poor", 0, 0, 0, 0, 0⟩

/-- A medium-bucket scan close to the lower boundary: neutral emotion,
jaw 1/30, posture good — score 36. -/
def medF1 : StressFeatures :=
  ⟨"neutral", 1/2, 0, 0, 1/30, "good", 0, 0, 0, 0, 0⟩

/-- A medium-bucket scan close to the bucket midpoint: neutral emotion,
jaw 0.4, posture good — score 47. -/
def medF2 : StressFeatures :=
  ⟨"neutral", 1/2, 0, 0, 2/5, "good", 0, 0, 0, 0, 0⟩

/-- A medium-bucket scan with score 40 (jaw 1/6). -/
def medF3 : StressFeatures :=
  ⟨"neutral", 1/2, 0, 0, 1/6, "good", 0, 0, 0, 0, 0⟩

/-- A low-bucket scan with score 20 (happy, jaw 1/6, good posture). -/
def lowF : StressFeatures :=
  ⟨"happy", 1/2, 0, 0, 1/6, "good", 0, 0, 0, 0, 0⟩

/-- A high-bucket scan with score 65 (sad, fair posture). -/
def highF : StressFeatures :=
  ⟨"sad", 1/2, 0, 0, 0, "fair", 0, 0, 0, 0, 0⟩

/-- `avg_first_half` as computed by `calculate_stress_trend`
(`api/utils.py` line 123): mean of the first `len // 2` entries. -/
def avg_first_half (levels : List ℚ) : ℚ :=
  (levels.take (levels.length / 2)).sum / ((levels.length / 2 : ℕ) : ℚ)

/-- `avg_second_half` as computed by `calculate_stress_trend`
(`api/utils.py` line 124): mean of the remaining entries. -/
def avg_second_half (levels : List ℚ) : ℚ :=
  (levels.drop (levels.length / 2)).sum /
    ((levels.length - levels.length / 2 : ℕ) : ℚ)

/-- `calculate_stress_trend` (`api/utils.py` lines 117-131). -/
def calculate_stress_trend (levels : List ℚ) : String :=
  if levels.length < 2 then "stable"
  else if |avg_second_half levels - avg_first_half levels| < 1/2 then "stable"
  else if avg_first_half levels < avg_second_half levels then "increasing"
  else "decreasing"

/-- A raised Python exception, carrying `type(e).__name__` and `str(e)`
— the two strings `is_network_error` inspects. -/
structure PyError where
  name : String
  msg : String
deriving DecidableEq

/-- Whether `needle` occurs at the very start of `hay`. -/
def startsWithChars : List Char → List Char → Bool
  | [], _ => true
  | _ :: _, [] => false
  | c :: cs, d :: ds => c == d && startsWithChars cs ds

/-- Whether `needle` occurs contiguously anywhere in `hay`. -/
def occursIn (needle : List Char) : List Char → Bool
  | [] => needle.isEmpty
  | d :: ds => startsWithChars needle (d :: ds) || occursIn needle ds

/-- Substring test, modelling Python's `indicator in text`. -/
def strContains (hay needle : String) : Bool :=
  occursIn needle.data hay.data

/-- The `network_indicators` list of `offline_storage.is_network_error`
(`offline_storage.py` lines 104-107). -/
def network_indicators : List String :=
  ["ConnectError", "getaddrinfo", "httpx", "ConnectionError",
   "TimeoutError", "NetworkError", "DNSError"]

/-- `is_network_error` (`offline_storage.py` lines 99-110): true when
any indicator is a substring of the exception's type name or message. -/
def is_network_error (e : PyError) : Bool :=
  network_indicators.any
    (fun indicator => strContains e.name indicator || strContains e.msg indicator)

/-- The validated habit payload (`models.HabitSubmission`). -/
structure HabitSubmission where
  user_id : String
  age : ℤ
  sleep_hours : ℚ
  work_hours : ℚ
  screen_time : ℚ
  water_intake : ℚ
  exercise : Bool
  meals_per_day : ℤ
  social_interaction : String
  caffeine_intake : Bool
deriving DecidableEq

/-- The habit record body assembled by the `/submit-habits` handler:
`body = data.dict(); body["id"] = str(uuid.uuid4());
body["created_at"] = iso_now()` (`app.py` lines 292-294).  `created_at`
is optional because the offline store's sort key is
`x.get("created_at", "")`. -/
structure HabitRecord where
  data : HabitSubmission
  id : String
  created_at : Option String
deriving DecidableEq

/-- `models.HabitResponse`: the pydantic response model declares exactly
the fields `success`, `message` and `habit_id` (`models.py` lines
58-61). -/
structure HabitResponse where
  success : Bool
  message : String
  habit_id : Option String
deriving DecidableEq

/-- The `HabitResponse(...)` constructor call of `app.py` lines 311-316,
which also passes `wellness_score=...`.  Pydantic ignores keyword
arguments for fields the model does not declare, and FastAPI serialises
through `response_model=HabitResponse`, so the wellness score is
dropped. -/
def mkHabitResponse (success : Bool) (message : String)
    (habit_id : Option String) (_wellness_score : ℚ) : HabitResponse :=
  ⟨success, message, habit_id⟩

/-- A JSON scalar of the serialised response. -/
inductive JVal where
  | b (v : Bool)
  | s (v : String)
  | q (v : ℚ)
  | null
deriving DecidableEq

/-- FastAPI's serialisation of a `HabitResponse` through
`response_model=HabitResponse`: exactly the declared fields, in
declaration order. -/
def habitResponseJson (r : HabitResponse) : List (String × JVal) :=
  [("success", JVal.b r.success),
   ("message", JVal.s r.message),
   ("habit_id", match r.habit_id with | some i => JVal.s i | none => JVal.null)]

/-- `OfflineStorage.create_habit` (`offline_storage.py` lines 65-69):
read the stored list, append the record, write it back. -/
def create_habit (habits : List HabitRecord) (habit_data : HabitRecord) :
    List HabitRecord :=
  habits ++ [habit_data]

/-- What one `/submit-habits` call produced: the HTTP-level result (an
uncaught exception would be `Except.error`), the fallback store contents
after the call, and the record handed to the primary store's `insert`
when that insert succeeded. -/
structure HabitCallOutcome where
  result : Except PyError HabitResponse
  fallbackAfter : List HabitRecord
  primaryInserted : Option HabitRecord

/-- The `/submit-habits` handler (`app.py` lines 289-341).  `newId` and
`now` are the `uuid.uuid4()` / `iso_now()` values assigned before the
primary attempt; `primary` is the primary insert's outcome (`none` =
success, `some e` = the exception it raised); `fallback` is the offline
store before the call; `wellness` is `predict_wellness`'s score (that
call never raises — it catches its own exceptions).  A network-classed
insert error is handled by the inner `except` (write to offline storage,
still report success); any other insert error is re-raised and then
caught by the outer `except`, whose `is_network_error` test is false for
it, producing `HabitResponse(success=False, message="Error saving
habit")`. -/
def submit_habits (newId now : String) (primary : Option PyError)
    (fallback : List HabitRecord) (data : HabitSubmission) (wellness : ℚ) :
    HabitCallOutcome :=
  let body : HabitRecord := ⟨data, newId, some now⟩
  match primary with
  | none =>
      ⟨Except.ok (mkHabitResponse true "Saved successfully" (some newId) wellness),
       fallback, some body⟩
  | some e =>
      if is_network_error e then
        ⟨Except.ok (mkHabitResponse true "Saved successfully" (some newId) wellness),
         create_habit fallback body, none⟩
      else
        ⟨Except.ok ⟨false, "Error saving habit", none⟩, fallback, none⟩

/-- A stored stress-scan row, as written by `/scan` (`app.py` lines
414-432): every feature column present and well-typed; `scanned_at` is
optional because the offline store's sort key is
`x.get("scanned_at", "")`. -/
structure ScanRecord where
  id : String
  emotion : String
  emotion_confidence : ℚ
  mouth_open : ℚ
  eyebrow_raise : ℚ
  jaw_clench_score : ℚ
  posture_quality : String
  slouch_score : ℚ
  head_tilt_angle : ℚ
  shoulder_alignment_diff : ℚ
  spine_curve_ratio : ℚ
  pose_confidence : ℚ
  image_url : Option String
  scanned_at : Option String
deriving DecidableEq

/-- One formatted entry of the `/api/scans` response (`app.py` lines
562-573). -/
structure FormattedScan where
  id : String
  emotion : String
  emotionConfidence : ℚ
  jawTension : ℚ
  postureQuality : ℚ
  overallStress : ℚ
  stressPrediction : String
  stressConfidence : ℚ
  timestamp : String
  imageUrl : Option String
deriving DecidableEq

/-- The `/api/scans` response body: `{"success": ..., "data": [...]}`. -/
structure ScansResponse where
  success : Bool
  data : List FormattedScan
deriving DecidableEq

/-- Python's `list.sort(key=..., reverse=True)`: a stable sort,
descending by key. -/
def sortDescByKey {α : Type} (key : α → String) (xs : List α) : List α :=
  List.insertionSort (fun a b => key b ≤ key a) xs

/-- Sort key of `OfflineStorage.get_scans`: `x.get("scanned_at", "")`. -/
def scanKey (s : ScanRecord) : String :=
  s.scanned_at.getD ""

/-- Sort key of `OfflineStorage.get_habits`: `x.get("created_at", "")`. -/
def habitKey (h : HabitRecord) : String :=
  h.created_at.getD ""

/-- `OfflineStorage.get_scans` (`offline_storage.py` lines 84-88): sort
by `scanned_at` descending, truncate to `limit`. -/
def offline_get_scans (scans : List ScanRecord) (limit : ℕ) : List ScanRecord :=
  (sortDescByKey scanKey scans).take limit

/-- `OfflineStorage.get_habits` (`offline_storage.py` lines 71-75): sort
by `created_at` descending, truncate to `limit`. -/
def offline_get_habits (habits : List HabitRecord) (limit : ℕ) : List HabitRecord :=
  (sortDescByKey habitKey habits).take limit

/-- The per-record body of the `/api/scans` formatting loop (`app.py`
lines 533-573): rebuild the feature dict, re-run `predict_stress`,
convert posture to a numeric value, and assemble the camel-case entry. -/
def formatScan (loaded : Bool) (s : ScanRecord) : FormattedScan :=
  let features : StressFeatures :=
    ⟨s.emotion, s.emotion_confidence, s.mouth_open, s.eyebrow_raise,
     s.jaw_clench_score, s.posture_quality, s.slouch_score, s.head_tilt_angle,
     s.shoulder_alignment_diff, s.spine_curve_ratio, s.pose_confidence⟩
  let prediction := predict_stress loaded false features
  let postureValue : ℚ :=
    if s.posture_quality = "good" then 100
    else if s.posture_quality = "fair" then 60
    else 30
  { id := s.id
    emotion := s.emotion
    emotionConfidence := s.emotion_confidence
    jawTension := s.jaw_clench_score * 100
    postureQuality := postureValue
    overallStress :=
      if prediction.1 = "low" then 20
      else if prediction.1 = "medium" then 50
      else 80
    stressPrediction := prediction.1
    stressConfidence := prediction.2
    timestamp := s.scanned_at.getD ""
    imageUrl := s.image_url }

/-- The tail of the `/api/scans` handler after `scans_data` is settled
(`app.py` lines 527-581): empty data short-circuits to
`{"success": True, "data": []}`, otherwise each record is formatted. -/
def formatScansResponse (loaded : Bool) (scans_data : List ScanRecord) :
    ScansResponse :=
  if scans_data = [] then ⟨true, []⟩
  else ⟨true, scans_data.map (formatScan loaded)⟩

/-- The body of the `/api/scans` handler up to (not including) its outer
`except` (`app.py` lines 510-581).  `primary` is the Supabase query's
outcome; on a query exception classified as a network error the handler
reads `offline_storage.get_scans(limit)` instead, otherwise it re-raises
(`Except.error`). -/
def get_scans_try (primary : Except PyError (List ScanRecord))
    (offline : List ScanRecord) (limit : ℕ) (loaded : Bool) :
    Except PyError ScansResponse :=
  match primary with
  | Except.ok d => Except.ok (formatScansResponse loaded d)
  | Except.error e =>
      if is_network_error e then
        Except.ok (formatScansResponse loaded (offline_get_scans offline limit))
      else
        Except.error e

/-- The full `/api/scans` endpoint (`app.py` lines 507-588): the body
runs inside `try`, and the outer `except` turns any escaped exception
into `{"success": True, "data": []}`. -/
def get_scans_endpoint (primary : Except PyError (List ScanRecord))
    (offline : List ScanRecord) (limit : ℕ) (loaded : Bool) :
    Except PyError ScansResponse :=
  match get_scans_try primary offline limit loaded with
  | Except.ok r => Except.ok r
  | Except.error _ => Except.ok ⟨true, []⟩

/-- A concrete habit submission used in witnesses. -/
def habitSub0 : HabitSubmission :=
  ⟨"user-1", 25, 7, 8, 6, 2, false, 3, "medium_social", false⟩

/-- A concrete transient (connectivity) primary-store error. -/
def netErr : PyError :=
  ⟨"ConnectError", "connection refused"⟩

/-- A concrete permanent (non-connectivity) primary-store error. -/
def permErr : PyError :=
  ⟨"APIError", "duplicate key value violates unique constraint"⟩

/-- A concrete stored scan row used in witnesses. -/
def scanR0 : ScanRecord :=
  ⟨"scan-1", "neutral", 1/2, 0, 0, 0, "good", 0, 0, 0, 0, 0,
   none, some "2024-01-01T00:00:00+00:00"⟩

/-! ## Helper lemmas -/

theorem score_happyF : stressScore happyF = 15 := by
  simp +decide [stressScore, emotion_scores, posture_scores, happyF]; norm_num

theorem score_angryF : stressScore angryF = 130 := by
  simp +decide [stressScore, emotion_scores, posture_scores, angryF]; norm_num

theorem score_medF1 : stressScore medF1 = 36 := by
  simp +decide [stressScore, emotion_scores, posture_scores, medF1]; norm_num

theorem score_medF2 : stressScore medF2 = 47 := by
  simp +decide [stressScore, emotion_scores, posture_scores, medF2]; norm_num

theorem score_medF3 : stressScore medF3 = 40 := by
  simp +decide [stressScore, emotion_scores, posture_scores, medF3]; norm_num

theorem score_lowF : stressScore lowF = 20 := by
  simp +decide [stressScore, emotion_scores, posture_scores, lowF]; norm_num

theorem score_highF : stressScore highF = 65 := by
  simp +decide [stressScore, emotion_scores, posture_scores, highF]; norm_num

theorem predict_stress_loaded (f : StressFeatures) :
    predict_stress true false f =
      ((stress_bucket (stressScore f)).1,
       min (95/100) (stress_bucket (stressScore f)).2) := by
  simp [predict_stress]

theorem stress_conf_lower (s : ℚ) : 7/10 ≤ min (95/100) (stress_bucket s).2 := by
  unfold stress_bucket
  by_cases h1 : s < 35
  · rw [if_pos h1]
    rw [le_min_iff]
    exact ⟨by norm_num, by linarith⟩
  · by_cases h2 : s < 60
    · rw [if_neg h1, if_pos h2]
      rw [le_min_iff]
      have := abs_nonneg (95/2 - s)
      exact ⟨by norm_num, by linarith⟩
    · rw [if_neg h1, if_neg h2]
      rw [le_min_iff]
      have h60 : (60 : ℚ) ≤ s := le_of_not_lt h2
      exact ⟨by norm_num, by linarith⟩

theorem stress_conf_upper (s : ℚ) :
    min ((95 : ℚ)/100) (stress_bucket s).2 ≤ 95/100 :=
  min_le_left _ _

theorem stress_bucket_fst (s : ℚ) :
    (stress_bucket s).1 = "low" ∨ (stress_bucket s).1 = "medium" ∨
      (stress_bucket s).1 = "high" := by
  unfold stress_bucket
  by_cases h1 : s < 35
  · left; rw [if_pos h1]
  · by_cases h2 : s < 60
    · right; left; rw [if_neg h1, if_pos h2]
    · right; right; rw [if_neg h1, if_neg h2]

/-! ## Claims -/

/-- C1.  With the model bundle loaded (and no exception injected), the
score computed by `predict_stress` is exactly the additive formula of
the claim, the returned bucket follows the `<35 / <60 / ≥60` tiers with
boundaries going to the lower tier, and the happy/relaxed example scores
15 and lands in `"low"`. -/
theorem predict_stress_formula_and_buckets (f : StressFeatures) :
    stressScore f = claimStressFormula f ∧
    (predict_stress true false f).1 = claimStressBucket (stressScore f) ∧
    stressScore happyF = 15 ∧
    (predict_stress true false happyF).1 = "low" := by
  refine ⟨?_, ?_, score_happyF, ?_⟩
  · unfold stressScore claimStressFormula emotion_scores posture_scores
    split_ifs <;> ring
  · rw [predict_stress_loaded]
    unfold stress_bucket claimStressBucket
    by_cases h1 : stressScore f < 35
    · rw [if_pos h1, if_pos h1]
    · by_cases h2 : stressScore f < 60
      · rw [if_neg h1, if_neg h1, if_pos h2, if_pos ⟨le_of_not_lt h1, h2⟩]
      · rw [if_neg h1, if_neg h1, if_neg h2]
        rw [if_neg (fun h => h2 h.2)]
  · rw [predict_stress_loaded, score_happyF]
    unfold stress_bucket
    norm_num

/-- C10.  When the model bundle is not loaded `predict_stress` returns
`("unknown", 0.0)`; when an exception occurs inside the scoring `try`
it returns `("medium", 0.0)`; under the loaded, exception-free
precondition the prediction is one of `low`/`medium`/`high` and the
confidence is at least 0.70 — and neither of those two facts survives
dropping the precondition, since the unloaded result has confidence 0
and a prediction outside the bucket set. -/
theorem predict_stress_guards (f : StressFeatures) (b : Bool) :
    predict_stress false b f = ("unknown", 0) ∧
    predict_stress true true f = ("medium", 0) ∧
    ((predict_stress true false f).1 = "low" ∨
      (predict_stress true false f).1 = "medium" ∨
      (predict_stress true false f).1 = "high") ∧
    7/10 ≤ (predict_stress true false f).2 ∧
    ¬ (7/10 ≤ (predict_stress false b f).2) ∧
    ¬ ((predict_stress false b f).1 = "low" ∨
       (predict_stress false b f).1 = "medium" ∨
       (predict_stress false b f).1 = "high") := by
  refine ⟨by simp [predict_stress], by simp [predict_stress], ?_, ?_, ?_, ?_⟩
  · rw [predict_stress_loaded]
    exact stress_bucket_fst (stressScore f)
  · rw [predict_stress_loaded]
    exact stress_conf_lower (stressScore f)
  · simp [predict_stress]
  · simp +decide [predict_stress]

theorem med_conf_eq (s : ℚ) (h1 : 35 ≤ s) (h2 : s < 60) :
    min ((95 : ℚ)/100) (stress_bucket s).2 =
      7/10 + (25/2 - min (s - 35) (60 - s)) / 100 := by
  unfold stress_bucket
  rw [if_neg (not_lt.mpr h1), if_pos h2]
  have habs : |95/2 - s| = 25/2 - min (s - 35) (60 - s) := by
    rcases le_total s (95/2) with h | h
    · rw [abs_of_nonneg (by linarith), min_eq_left (by linarith)]
      ring
    · rw [abs_of_nonpos (by linarith), min_eq_right (by linarith)]
      ring
  dsimp only
  rw [habs]
  have hm : (0 : ℚ) ≤ min (s - 35) (60 - s) := le_min (by linarith) (by linarith)
  rw [min_eq_right (by linarith)]
  norm_num

theorem boundaryDist_low (s : ℚ) (h : s < 35) : boundaryDist s = 35 - s := by
  unfold boundaryDist
  rw [if_pos h]

theorem boundaryDist_med (s : ℚ) (h1 : 35 ≤ s) (h2 : s < 60) :
    boundaryDist s = min (s - 35) (60 - s) := by
  unfold boundaryDist
  rw [if_neg (not_lt.mpr h1), if_pos h2]

theorem boundaryDist_high (s : ℚ) (h : 60 ≤ s) : boundaryDist s = s - 60 := by
  unfold boundaryDist
  rw [if_neg (by linarith : ¬ s < 35), if_neg (not_lt.mpr h)]

/-- C2 counterexample.  Two valid medium-bucket inputs (documented
emotion and posture categories, numeric features within 0–1): `medF1`
scores 36 (distance 1 from the nearest boundary), `medF2` scores 47
(distance 12), yet the confidence of the *farther* score is strictly
smaller — refuting the claim that confidence increases with the score's
distance from the nearest bucket boundary within its bucket. -/
theorem stress_confidence_not_monotone :
    (predict_stress true false medF1).1 = "medium" ∧
    (predict_stress true false medF2).1 = "medium" ∧
    boundaryDist (stressScore medF1) < boundaryDist (stressScore medF2) ∧
    (predict_stress true false medF2).2 < (predict_stress true false medF1).2 := by
  have e1 := predict_stress_loaded medF1
  have e2 := predict_stress_loaded medF2
  rw [score_medF1] at e1
  rw [score_medF2] at e2
  refine ⟨?_, ?_, ?_, ?_⟩
  · rw [e1]
    unfold stress_bucket
    norm_num
  · rw [e2]
    unfold stress_bucket
    norm_num
  · rw [score_medF1, score_medF2, boundaryDist_med 36 (by norm_num) (by norm_num),
        boundaryDist_med 47 (by norm_num) (by norm_num)]
    norm_num [min_def]
  · rw [e1, e2, med_conf_eq 36 (by norm_num) (by norm_num),
        med_conf_eq 47 (by norm_num) (by norm_num)]
    norm_num [min_def]

/-- C2 (amended).  For every stress feature input (model loaded, no
exception), the confidence lies in [0.70, 0.95] and is capped at 0.95;
within the low and the high buckets it is monotone non-decreasing in the
score's distance from the nearest bucket boundary, but within the medium
bucket it equals `0.70 + (12.5 − distance)/100`, i.e. it *decreases* as
the score moves away from the nearest boundary; the angry example scores
130 and yields `("high", 0.95)` (capped). -/
theorem stress_confidence_spec :
    (∀ f : StressFeatures,
      7/10 ≤ (predict_stress true false f).2 ∧
      (predict_stress true false f).2 ≤ 95/100) ∧
    (∀ f g : StressFeatures, stressScore f < 35 → stressScore g < 35 →
      boundaryDist (stressScore f) ≤ boundaryDist (stressScore g) →
      (predict_stress true false f).2 ≤ (predict_stress true false g).2) ∧
    (∀ f g : StressFeatures, 60 ≤ stressScore f → 60 ≤ stressScore g →
      boundaryDist (stressScore f) ≤ boundaryDist (stressScore g) →
      (predict_stress true false f).2 ≤ (predict_stress true false g).2) ∧
    (∀ f : StressFeatures, 35 ≤ stressScore f → stressScore f < 60 →
      (predict_stress true false f).2 =
        7/10 + (25/2 - boundaryDist (stressScore f)) / 100) ∧
    stressScore angryF = 130 ∧
    predict_stress true false angryF = ("high", 95/100) := by
  refine ⟨?_, ?_, ?_, ?_, score_angryF, ?_⟩
  · intro f
    rw [predict_stress_loaded]
    exact ⟨stress_conf_lower _, stress_conf_upper _⟩
  · intro f g hf hg hd
    rw [predict_stress_loaded, predict_stress_loaded]
    rw [boundaryDist_low _ hf, boundaryDist_low _ hg] at hd
    unfold stress_bucket
    rw [if_pos hf, if_pos hg]
    exact min_le_min le_rfl (by dsimp only; linarith)
  · intro f g hf hg hd
    rw [predict_stress_loaded, predict_stress_loaded]
    rw [boundaryDist_high _ hf, boundaryDist_high _ hg] at hd
    unfold stress_bucket
    rw [if_neg (by linarith : ¬ stressScore f < 35),
        if_neg (not_lt.mpr hf),
        if_neg (by linarith : ¬ stressScore g < 35),
        if_neg (not_lt.mpr hg)]
    exact min_le_min le_rfl (by dsimp only; linarith)
  · intro f h1 h2
    rw [predict_stress_loaded, med_conf_eq _ h1 h2, boundaryDist_med _ h1 h2]
  · rw [predict_stress_loaded, score_angryF]
    unfold stress_bucket
    norm_num [min_def]

/-- Witness for C2 (amended), instantiating each clause at concrete
inputs: the bounds at `happyF`; low-bucket monotonicity at `lowF`
(score 20, distance 15) vs `happyF` (score 15, distance 20); high-bucket
monotonicity at `highF` (score 65, distance 5) vs `angryF` (score 130,
distance 70); the medium-bucket formula at `medF3` (score 40). -/
theorem stress_confidence_spec_witness :
    (7/10 ≤ (predict_stress true false happyF).2 ∧
      (predict_stress true false happyF).2 ≤ 95/100) ∧
    (predict_stress true false lowF).2 ≤ (predict_stress true false happyF).2 ∧
    (predict_stress true false highF).2 ≤ (predict_stress true false angryF).2 ∧
    (predict_stress true false medF3).2 =
      7/10 + (25/2 - boundaryDist (stressScore medF3)) / 100 := by
  refine ⟨stress_confidence_spec.1 happyF, ?_, ?_, ?_⟩
  · exact stress_confidence_spec.2.1 lowF happyF
      (by rw [score_lowF]; norm_num)
      (by rw [score_happyF]; norm_num)
      (by rw [score_lowF, score_happyF,
              boundaryDist_low 20 (by norm_num), boundaryDist_low 15 (by norm_num)]
          norm_num)
  · exact stress_confidence_spec.2.2.1 highF angryF
      (by rw [score_highF]; norm_num)
      (by rw [score_angryF]; norm_num)
      (by rw [score_highF, score_angryF,
              boundaryDist_high 65 (by norm_num), boundaryDist_high 130 (by norm_num)]
          norm_num)
  · exact stress_confidence_spec.2.2.2.1 medF3
      (by rw [score_medF3]; norm_num)
      (by rw [score_medF3]; norm_num)

/-- C3 counterexample.  On the claim's own example `[50, 51, 49, 50]`
the half means are 50.5 and 49.5, so the absolute difference 1.0 is not
below the 0.5 threshold and `calculate_stress_trend` returns
`"decreasing"`, not the claimed `"stable"`. -/
theorem trend_example_not_stable :
    calculate_stress_trend [50, 51, 49, 50] = "decreasing" ∧
    calculate_stress_trend [50, 51, 49, 50] ≠ "stable" := by
  have h : calculate_stress_trend [50, 51, 49, 50] = "decreasing" := by
    simp only [calculate_stress_trend, avg_first_half, avg_second_half]
    norm_num
  exact ⟨h, by rw [h]; decide⟩

/-- C3 (amended).  Trend classification splits the list into halves by
count, compares the half means against the fixed 0.5 threshold, and
classifies by the sign of (second-half mean − first-half mean); fewer
than 2 points give `"stable"`.  The examples `[10,10,10,80,80,80]` →
`"increasing"`, `[80,80,80,10,10,10]` → `"decreasing"` and a single
point → `"stable"` hold, but `[50,51,49,50]` yields `"decreasing"`
(half-mean difference −1.0, not below the threshold in absolute value),
not `"stable"` as claimed. -/
theorem calculate_stress_trend_spec (levels : List ℚ) :
    (levels.length < 2 → calculate_stress_trend levels = "stable") ∧
    (2 ≤ levels.length →
      |avg_second_half levels - avg_first_half levels| < 1/2 →
      calculate_stress_trend levels = "stable") ∧
    (2 ≤ levels.length →
      1/2 ≤ avg_second_half levels - avg_first_half levels →
      calculate_stress_trend levels = "increasing") ∧
    (2 ≤ levels.length →
      avg_second_half levels - avg_first_half levels ≤ -(1/2) →
      calculate_stress_trend levels = "decreasing") ∧
    calculate_stress_trend [10, 10, 10, 80, 80, 80] = "increasing" ∧
    calculate_stress_trend [80, 80, 80, 10, 10, 10] = "decreasing" ∧
    calculate_stress_trend [50, 51, 49, 50] = "decreasing" ∧
    calculate_stress_trend [42] = "stable" := by
  refine ⟨?_, ?_, ?_, ?_, ?_, ?_, ?_, ?_⟩
  · intro h
    unfold calculate_stress_trend
    rw [if_pos h]
  · intro h hlt
    unfold calculate_stress_trend
    rw [if_neg (not_lt.mpr h), if_pos hlt]
  · intro h hge
    unfold calculate_stress_trend
    have habs : ¬ |avg_second_half levels - avg_first_half levels| < 1/2 := by
      rw [not_lt, le_abs]
      exact Or.inl hge
    rw [if_neg (not_lt.mpr h), if_neg habs,
        if_pos (by linarith : avg_first_half levels < avg_second_half levels)]
  · intro h hle
    unfold calculate_stress_trend
    have habs : ¬ |avg_second_half levels - avg_first_half levels| < 1/2 := by
      rw [not_lt, le_abs]
      right
      linarith
    rw [if_neg (not_lt.mpr h), if_neg habs,
        if_neg (by push_neg; linarith : ¬ avg_first_half levels < avg_second_half levels)]
  · simp only [calculate_stress_trend, avg_first_half, avg_second_half]
    norm_num
  · simp only [calculate_stress_trend, avg_first_half, avg_second_half]
    norm_num
  · simp only [calculate_stress_trend, avg_first_half, avg_second_half]
    norm_num
  · simp only [calculate_stress_trend, avg_first_half, avg_second_half]
    norm_num

/-- Witness for C3 (amended), discharging each hypothesis at concrete
lists: `[42]` (fewer than 2 points), `[5,5]` (difference 0, stable),
`[0,1]` (difference 1, increasing), `[1,0]` (difference −1,
decreasing). -/
theorem calculate_stress_trend_spec_witness :
    calculate_stress_trend [42] = "stable" ∧
    calculate_stress_trend [5, 5] = "stable" ∧
    calculate_stress_trend [0, 1] = "increasing" ∧
    calculate_stress_trend [1, 0] = "decreasing" := by
  refine ⟨(calculate_stress_trend_spec [42]).1 (by norm_num),
          (calculate_stress_trend_spec [5, 5]).2.1 (by norm_num) ?_,
          (calculate_stress_trend_spec [0, 1]).2.2.1 (by norm_num) ?_,
          (calculate_stress_trend_spec [1, 0]).2.2.2.1 (by norm_num) ?_⟩
  · simp only [avg_first_half, avg_second_half]
    norm_num
  · simp only [avg_first_half, avg_second_half]
    norm_num
  · simp only [avg_first_half, avg_second_half]
    norm_num

/-- C4.  When the primary insert raises a connectivity-classed error,
the `/submit-habits` call appends to the offline store exactly the body
assembled before the primary attempt — the very record a successful
primary insert would have stored (same `id`, same `created_at`) — and
still reports success to the caller with that identifier. -/
theorem habit_fallback_on_transient (newId now : String) (e : PyError)
    (fallback : List HabitRecord) (data : HabitSubmission) (wellness : ℚ)
    (h : is_network_error e = true) :
    (submit_habits newId now (some e) fallback data wellness).fallbackAfter
      = fallback ++ [⟨data, newId, some now⟩] ∧
    (submit_habits newId now (some e) fallback data wellness).result
      = Except.ok ⟨true, "Saved successfully", some newId⟩ ∧
    (submit_habits newId now none fallback data wellness).primaryInserted
      = some ⟨data, newId, some now⟩ := by
  refine ⟨?_, ?_, rfl⟩ <;> simp [submit_habits, create_habit, mkHabitResponse, h]

/-- Witness for C4 at a concrete transient error (`ConnectError`). -/
theorem habit_fallback_on_transient_witness :
    (submit_habits "id-1" "t-1" (some netErr) [] habitSub0 77).fallbackAfter
      = [] ++ [⟨habitSub0, "id-1", some "t-1"⟩] ∧
    (submit_habits "id-1" "t-1" (some netErr) [] habitSub0 77).result
      = Except.ok ⟨true, "Saved successfully", some "id-1"⟩ ∧
    (submit_habits "id-1" "t-1" none [] habitSub0 77).primaryInserted
      = some ⟨habitSub0, "id-1", some "t-1"⟩ :=
  habit_fallback_on_transient "id-1" "t-1" netErr [] habitSub0 77 (by decide)

/-- C5 counterexample.  On a permanent primary-insert error
(`APIError`, a constraint violation) the call does leave the fallback
store untouched, but it does not propagate the error: the outer
`except` of the handler catches the re-raised exception and returns
`HabitResponse(success=False, message="Error saving habit")` — a normal
(non-raising) response. -/
theorem habit_permanent_not_propagated :
    is_network_error permErr = false ∧
    (submit_habits "id-2" "t-2" (some permErr) [] habitSub0 77).result
      = Except.ok ⟨false, "Error saving habit", none⟩ ∧
    (submit_habits "id-2" "t-2" (some permErr) [] habitSub0 77).result
      ≠ Except.error permErr ∧
    (submit_habits "id-2" "t-2" (some permErr) [] habitSub0 77).fallbackAfter
      = [] := by
  have h : is_network_error permErr = false := by decide
  refine ⟨h, ?_, ?_, ?_⟩ <;> simp [submit_habits, h]

/-- C5 (amended).  On a primary-insert error not classified as a
connectivity error, the call does not fall back (the Fallback Store is
unchanged) and no exception reaches the caller: the outer handler
converts the re-raised error into the failure response
`HabitResponse(success=False, message="Error saving habit")`. -/
theorem habit_permanent_spec (newId now : String) (e : PyError)
    (fallback : List HabitRecord) (data : HabitSubmission) (wellness : ℚ)
    (h : is_network_error e = false) :
    (submit_habits newId now (some e) fallback data wellness).fallbackAfter
      = fallback ∧
    (submit_habits newId now (some e) fallback data wellness).result
      = Except.ok ⟨false, "Error saving habit", none⟩ ∧
    ∀ err : PyError,
      (submit_habits newId now (some e) fallback data wellness).result
        ≠ Except.error err := by
  refine ⟨?_, ?_, ?_⟩ <;> simp [submit_habits, h]

/-- Witness for C5 (amended) at the concrete permanent error. -/
theorem habit_permanent_spec_witness :
    (submit_habits "id-5" "t-5" (some permErr) [] habitSub0 50).fallbackAfter
      = [] ∧
    (submit_habits "id-5" "t-5" (some permErr) [] habitSub0 50).result
      = Except.ok ⟨false, "Error saving habit", none⟩ ∧
    ∀ err : PyError,
      (submit_habits "id-5" "t-5" (some permErr) [] habitSub0 50).result
        ≠ Except.error err :=
  habit_permanent_spec "id-5" "t-5" permErr [] habitSub0 50 (by decide)

/-- C8 counterexample.  A successful ingestion (primary insert ok,
wellness score 77 computed and passed to the response constructor)
serialises to exactly the fields `success`, `message`, `habit_id`: the
declared `HabitResponse` model has no field for the score, the
confidence, or a `storedVia` tag, so the response does not carry the
computed score or its confidence as the claim states. -/
theorem habit_response_lacks_score :
    (submit_habits "id-3" "t-3" none [] habitSub0 77).result
      = Except.ok (mkHabitResponse true "Saved successfully" (some "id-3") 77) ∧
    mkHabitResponse true "Saved successfully" (some "id-3") 77
      = ⟨true, "Saved successfully", some "id-3"⟩ ∧
    (habitResponseJson ⟨true, "Saved successfully", some "id-3"⟩).map Prod.fst
      = ["success", "message", "habit_id"] ∧
    "score" ∉
      (habitResponseJson ⟨true, "Saved successfully", some "id-3"⟩).map Prod.fst ∧
    "confidence" ∉
      (habitResponseJson ⟨true, "Saved successfully", some "id-3"⟩).map Prod.fst ∧
    "wellness_score" ∉
      (habitResponseJson ⟨true, "Saved successfully", some "id-3"⟩).map Prod.fst ∧
    "storedVia" ∉
      (habitResponseJson ⟨true, "Saved successfully", some "id-3"⟩).map Prod.fst := by
  refine ⟨rfl, rfl, rfl, ?_, ?_, ?_, ?_⟩ <;> decide

/-- C8 (amended).  Whenever storage succeeded in either location
(primary insert ok, or a connectivity-classed failure followed by the
offline write), the call returns success with the assigned identifier
and never raises; the computed wellness score is passed to the response
constructor but dropped (the declared response fields are exactly
`success`, `message`, `habit_id` — no score, confidence or `storedVia`
field exists on the contract). -/
theorem habit_success_response_spec (newId now : String)
    (primary : Option PyError) (fallback : List HabitRecord)
    (data : HabitSubmission) (wellness : ℚ)
    (h : primary = none ∨ ∃ e, primary = some e ∧ is_network_error e = true) :
    (submit_habits newId now primary fallback data wellness).result
      = Except.ok ⟨true, "Saved successfully", some newId⟩ ∧
    mkHabitResponse true "Saved successfully" (some newId) wellness
      = ⟨true, "Saved successfully", some newId⟩ ∧
    (habitResponseJson ⟨true, "Saved successfully", some newId⟩).map Prod.fst
      = ["success", "message", "habit_id"] := by
  refine ⟨?_, rfl, rfl⟩
  rcases h with rfl | ⟨e, rfl, he⟩
  · simp [submit_habits, mkHabitResponse]
  · simp [submit_habits, mkHabitResponse, he]

/-- Witness for C8 (amended): a transient failure followed by the
offline write still reports success with the assigned identifier. -/
theorem habit_success_response_spec_witness :
    (submit_habits "id-4" "t-4" (some netErr) [] habitSub0 42).result
      = Except.ok ⟨true, "Saved successfully", some "id-4"⟩ ∧
    mkHabitResponse true "Saved successfully" (some "id-4") 42
      = ⟨true, "Saved successfully", some "id-4"⟩ ∧
    (habitResponseJson ⟨true, "Saved successfully", some "id-4"⟩).map Prod.fst
      = ["success", "message", "habit_id"] :=
  habit_success_response_spec "id-4" "t-4" (some netErr) [] habitSub0 42
    (Or.inr ⟨netErr, rfl, by decide⟩)

theorem formatScansResponse_success (loaded : Bool) (d : List ScanRecord) :
    (formatScansResponse loaded d).success = true := by
  unfold formatScansResponse
  split <;> rfl

/-- C6 counterexample.  With a permanent (non-connectivity) error from
the primary query and a non-empty fallback store, the body of
`/api/scans` re-raises the error, but the endpoint's outer `except`
absorbs it and answers `{"success": True, "data": []}` — the permanent
error is not propagated to the caller, contrary to the claim. -/
theorem read_permanent_absorbed :
    is_network_error permErr = false ∧
    get_scans_try (Except.error permErr) [scanR0] 5 true
      = Except.error permErr ∧
    get_scans_endpoint (Except.error permErr) [scanR0] 5 true
      = Except.ok ⟨true, []⟩ ∧
    get_scans_endpoint (Except.error permErr) [scanR0] 5 true
      ≠ Except.error permErr := by
  have h : is_network_error permErr = false := by decide
  refine ⟨h, ?_, ?_, ?_⟩ <;> simp [get_scans_endpoint, get_scans_try, h]

/-- C6 (amended).  On a primary retrieval error the handler classifies
it: a connectivity-classed error makes the endpoint serve the records
of the Fallback Store; any other error is re-raised past the fallback
logic but then caught by the endpoint's outer handler, which absorbs it
into a successful empty response instead of propagating it. -/
theorem read_failover_spec (e : PyError) (offline : List ScanRecord)
    (limit : ℕ) (loaded : Bool) :
    (is_network_error e = true →
      get_scans_endpoint (Except.error e) offline limit loaded
        = Except.ok (formatScansResponse loaded (offline_get_scans offline limit))) ∧
    (is_network_error e = false →
      get_scans_try (Except.error e) offline limit loaded = Except.error e ∧
      get_scans_endpoint (Except.error e) offline limit loaded
        = Except.ok ⟨true, []⟩) := by
  constructor
  · intro h
    simp [get_scans_endpoint, get_scans_try, h]
  · intro h
    constructor <;> simp [get_scans_endpoint, get_scans_try, h]

/-- Witness for C6 (amended): the transient branch served from the
fallback store at `netErr`, the permanent branch absorbed at
`permErr`. -/
theorem read_failover_spec_witness :
    get_scans_endpoint (Except.error netErr) [scanR0] 5 true
      = Except.ok (formatScansResponse true (offline_get_scans [scanR0] 5)) ∧
    (get_scans_try (Except.error permErr) [] 5 true = Except.error permErr ∧
     get_scans_endpoint (Except.error permErr) [] 5 true
       = Except.ok ⟨true, []⟩) :=
  ⟨(read_failover_spec netErr [scanR0] 5 true).1 (by decide),
   (read_failover_spec permErr [] 5 true).2 (by decide)⟩

/-- C7.  The `/api/scans` endpoint never raises: whatever the primary
query's outcome, the fallback contents, the limit and the model state,
it returns a normal response with `success = True`; and whenever the
handler body would have escaped with an exception, the outer handler
replaces it with the successful empty response. -/
theorem read_never_raises (primary : Except PyError (List ScanRecord))
    (offline : List ScanRecord) (limit : ℕ) (loaded : Bool) :
    (∃ r : ScansResponse,
      get_scans_endpoint primary offline limit loaded = Except.ok r ∧
      r.success = true) ∧
    (∀ e : PyError,
      get_scans_try primary offline limit loaded = Except.error e →
      get_scans_endpoint primary offline limit loaded
        = Except.ok ⟨true, []⟩) := by
  constructor
  · unfold get_scans_endpoint get_scans_try
    cases primary with
    | ok d =>
        exact ⟨formatScansResponse loaded d, rfl, formatScansResponse_success _ _⟩
    | error e =>
        by_cases h : is_network_error e = true
        · simp only [h, if_true]
          exact ⟨formatScansResponse loaded (offline_get_scans offline limit), rfl,
                 formatScansResponse_success _ _⟩
        · simp only [h]
          exact ⟨⟨true, []⟩, by simp, rfl⟩
  · intro e he
    unfold get_scans_endpoint
    rw [he]

/-- Witness for C7: the permanent-error run returns the successful
empty response. -/
theorem read_never_raises_witness :
    (∃ r : ScansResponse,
      get_scans_endpoint (Except.error permErr) [scanR0] 3 true = Except.ok r ∧
      r.success = true) ∧
    get_scans_endpoint (Except.error permErr) [scanR0] 3 true
      = Except.ok ⟨true, []⟩ := by
  refine ⟨(read_never_raises (Except.error permErr) [scanR0] 3 true).1,
          (read_never_raises (Except.error permErr) [scanR0] 3 true).2 permErr ?_⟩
  simp [get_scans_try, (by decide : is_network_error permErr = false)]

theorem sortDescByKey_sorted {α : Type} (key : α → String) (xs : List α) :
    (sortDescByKey key xs).Pairwise (fun a b => key b ≤ key a) := by
  unfold sortDescByKey
  haveI : IsTotal α (fun a b => key b ≤ key a) :=
    ⟨fun a b => le_total (key b) (key a)⟩
  haveI : IsTrans α (fun a b => key b ≤ key a) :=
    ⟨fun _ _ _ hab hbc => le_trans hbc hab⟩
  exact List.sorted_insertionSort _ xs

theorem str_empty_le (s : String) : ("" : String) ≤ s :=
  String.le_iff_toList_le.mpr List.nil_le

/-- C9.  For both record kinds and every limit, the fallback store's
recency retrieval returns at most `limit` records, in non-increasing
order of the sort key (`scanned_at` for scans, `created_at` for habits,
a missing timestamp sorting as `""`), and once a record with key `""`
(in particular one with a missing timestamp) appears, every later
record also has key `""` — missing timestamps come last. -/
theorem offline_recent_spec (scans : List ScanRecord)
    (habits : List HabitRecord) (limit : ℕ) :
    (offline_get_scans scans limit).length ≤ limit ∧
    (offline_get_scans scans limit).Pairwise
      (fun a b => scanKey b ≤ scanKey a) ∧
    (offline_get_scans scans limit).Pairwise
      (fun a b => scanKey a = "" → scanKey b = "") ∧
    (offline_get_habits habits limit).length ≤ limit ∧
    (offline_get_habits habits limit).Pairwise
      (fun a b => habitKey b ≤ habitKey a) ∧
    (offline_get_habits habits limit).Pairwise
      (fun a b => habitKey a = "" → habitKey b = "") := by
  have hs : (offline_get_scans scans limit).Pairwise
      (fun a b => scanKey b ≤ scanKey a) :=
    (sortDescByKey_sorted scanKey scans).sublist (List.take_sublist _ _)
  have hh : (offline_get_habits habits limit).Pairwise
      (fun a b => habitKey b ≤ habitKey a) :=
    (sortDescByKey_sorted habitKey habits).sublist (List.take_sublist _ _)
  refine ⟨?_, hs, ?_, ?_, hh, ?_⟩
  · rw [offline_get_scans, List.length_take]
    exact min_le_left _ _
  · exact hs.imp (fun hab ha => le_antisymm (ha ▸ hab) (str_empty_le _))
  · rw [offline_get_habits, List.length_take]
    exact min_le_left _ _
  · exact hh.imp (fun hab ha => le_antisymm (ha ▸ hab) (str_empty_le _))
